import Mathlib

/-!
Shallow embedding of the network-diagnostic engine in
`app/testsuite/net_link.py` (the `voiptester` repository).

Modelling conventions:
* A Python string is a `List Char` (abbreviated `Str`); `str s` turns a
  Lean string literal into that representation.
* Each external command invocation is an oracle value of type
  `Except Str α`: `Except.error e` models the `subprocess.run` call
  raising `OSError` with message `e`, and `Except.ok v` models a
  successful invocation whose captured stdout is `v`.  For the two
  parsers that consume `stdout.splitlines()` the oracle value is the
  line list (`List Str`); the empty stdout string corresponds exactly to
  the empty line list, which the code treats identically.
* `Env` packages the five oracles consumed by one run of
  `run_network_test`; the per-interface commands are functions from the
  interface name to the oracle outcome.
* Dictionaries with fixed key sets become structures whose fields keep
  the Python key names; a key bound to `None` becomes `Option.none`.
-/

abbrev Str := List Char

def str (s : String) : Str := s.data

/-- Python `c.isspace()` for the characters relevant here; also the
whitespace notion used by `str.split()` / `str.strip()`. -/
def isWS (c : Char) : Bool := c.isWhitespace

/-- Python `s.split()` (no separator): split on runs of whitespace,
discarding empty fragments.  `cur` accumulates the current fragment in
reverse. -/
def splitWsAux : Str → Str → List Str
  | [], cur => if cur = [] then [] else [cur.reverse]
  | c :: cs, cur =>
    if isWS c then
      if cur = [] then splitWsAux cs []
      else cur.reverse :: splitWsAux cs []
    else splitWsAux cs (c :: cur)

def splitWs (s : Str) : List Str := splitWsAux s []

/-- Python `s.lstrip()`. -/
def lstrip (s : Str) : Str := s.dropWhile isWS

/-- Python `s.strip()`. -/
def strip (s : Str) : Str := ((s.dropWhile isWS).reverse.dropWhile isWS).reverse

/-- Python `s.startswith(p)`. -/
def startsWithL : Str → Str → Bool
  | _, [] => true
  | [], _ :: _ => false
  | c :: cs, p :: ps => c == p && startsWithL cs ps

/-- Python `pat in s` (substring containment). -/
def containsSub : Str → Str → Bool
  | [], pat => startsWithL [] pat
  | c :: cs, pat => startsWithL (c :: cs) pat || containsSub cs pat

/-- Python `s.split(sep, 1)` for a one-character separator, reported as
`none` when the separator does not occur (one part) and
`some (before, after)` when it does (two parts). -/
def splitFirstChar (sep : Char) : Str → Option (Str × Str)
  | [] => none
  | c :: cs =>
    if c = sep then some ([], cs)
    else
      match splitFirstChar sep cs with
      | none => none
      | some (a, b) => some (c :: a, b)

/-- Python `s.split(sep)[0]` for a one-character separator: the part
before the first occurrence of `sep` (all of `s` when absent). -/
def takeUntilChar (sep : Char) : Str → Str
  | [] => []
  | c :: cs => if c = sep then [] else c :: takeUntilChar sep cs

/-- Python `s.lower()` (the inputs here are ASCII). -/
def toLowerL (s : Str) : Str := s.map Char.toLower

/-! ## Route resolver (`detect_default_route`) -/

/-- The dict built by `detect_default_route`. -/
structure RouteInfo where
  gateway : Option Str
  interface : Option Str
  ip_address : Option Str
  error : Option Str
deriving DecidableEq, Repr

def emptyRouteInfo : RouteInfo :=
  { gateway := none, interface := none, ip_address := none, error := none }

/-- One iteration body of the token loop in `detect_default_route`:
the effect on `route_info` of seeing token `tok` with following token
`next` (the `i + 1 < len(tokens)` bound holds by construction). -/
def routeUpdate (info : RouteInfo) (tok next : Str) : RouteInfo :=
  if tok = str "via" then { info with gateway := some next }
  else if tok = str "dev" then { info with interface := some next }
  else if tok = str "src" then { info with ip_address := some next }
  else info

/-- The `for i, token in enumerate(tokens)` loop of
`detect_default_route`: a token captures only when a following token
exists (`i + 1 < len(tokens)`), so the final token never captures. -/
def routeScan (info : RouteInfo) : List Str → RouteInfo
  | [] => info
  | [_] => info
  | tok :: next :: rest => routeScan (routeUpdate info tok next) (next :: rest)

/-- Token-level route parsing, starting from the all-`None` dict. -/
def routeParse (tokens : List Str) : RouteInfo := routeScan emptyRouteInfo tokens

/-- `detect_default_route`, as a function of the
`ip route get 8.8.8.8` oracle. -/
def detect_default_route (out : Except Str Str) : RouteInfo :=
  match out with
  | .error e => { emptyRouteInfo with error := some e }
  | .ok route_result =>
    if route_result = [] then
      { emptyRouteInfo with error := some (str "no route output") }
    else
      let tokens := splitWs (strip route_result)
      if tokens = [] then
        { emptyRouteInfo with error := some (str "empty route tokens") }
      else routeParse tokens

/-! ## Link state prober (`detect_interface_state`) -/

/-- The dict built by `detect_interface_state`. -/
structure LinkInfo where
  physical_link_up : Bool
  link_state_up : Bool
  error : Option Str
deriving DecidableEq, Repr

/-- `detect_interface_state`, as a function of the
`ip link show <interface>` oracle. -/
def detect_interface_state (out : Except Str Str) : LinkInfo :=
  match out with
  | .error e => { physical_link_up := false, link_state_up := false, error := some e }
  | .ok result =>
    if result = [] then
      { physical_link_up := false, link_state_up := false
        error := some (str "link state not available") }
    else
      { physical_link_up := containsSub result (str "LOWER_UP")
        link_state_up := containsSub result (str "state UP")
        error := none }

/-! ## Speed prober (`get_link_speed`) -/

/-- The `for line in lines` loop of `get_link_speed`: the first line
whose left-stripped form starts with `"Speed:"` decides the result
(returning `None` from inside the loop when its value is empty or
contains `"unknown"` case-insensitively). -/
def speedScan : List Str → Option Str
  | [] => none
  | line :: rest =>
    let stripped := lstrip line
    if startsWithL stripped (str "Speed:") then
      match splitFirstChar ':' stripped with
      | none => none
      | some (_, picked) =>
        let value := strip picked
        if value = [] then none
        else if containsSub (toLowerL value) (str "unknown") then none
        else some value
    else speedScan rest

/-- `get_link_speed`, as a function of the `ethtool <interface>` oracle
(given as the `splitlines()` of its stdout). -/
def get_link_speed (out : Except Str (List Str)) : Option Str :=
  match out with
  | .error _ => none
  | .ok lines => speedScan lines

/-! ## Address prober (`detect_ip_source`) -/

/-- The dict built by `detect_ip_source`. -/
structure AddrInfo where
  ip_present : Bool
  ip_address : Option Str
  ip_source : Str
  error : Option Str
deriving DecidableEq, Repr

def emptyAddrInfo : AddrInfo :=
  { ip_present := false, ip_address := none, ip_source := str "none", error := none }

/-- The line loop of `detect_ip_source`: a stripped line starting with
`"inet"` but with fewer than two whitespace-separated parts is skipped
(`continue`); the first such line with at least two parts returns. -/
def ipScan : List Str → AddrInfo
  | [] => emptyAddrInfo
  | l :: rest =>
    let line := strip l
    if startsWithL line (str "inet") then
      match splitWs line with
      | _ :: p1 :: _ =>
        { ip_present := true
          ip_address := some (takeUntilChar '/' p1)
          ip_source := if containsSub line (str "dynamic") then str "dhcp" else str "static"
          error := none }
      | _ => ipScan rest
    else ipScan rest

/-- `detect_ip_source`, as a function of the
`ip -4 addr show dev <interface>` oracle (given as the `splitlines()`
of its stdout; the `if not result` early return coincides with the
empty line list, on which the loop returns the same dict). -/
def detect_ip_source (out : Except Str (List Str)) : AddrInfo :=
  match out with
  | .error e => { emptyAddrInfo with error := some e }
  | .ok lines => ipScan lines

/-! ## Resolvance prober (`dns_ok`) -/

/-- `dns_ok`, as a function of the `dig +short google.com` oracle. -/
def dns_ok (out : Except Str Str) : Bool :=
  match out with
  | .error _ => false
  | .ok s => strip s ≠ []

/-! ## Orchestrator (`run_network_test`) -/

/-- The external world of one diagnostic run: the five command oracles.
Per-interface commands take the interface name they are invoked on. -/
structure Env where
  route : Except Str Str
  link : Str → Except Str Str
  speed : Str → Except Str (List Str)
  addr : Str → Except Str (List Str)
  dns : Except Str Str

/-- The result dict of `run_network_test`. -/
structure NetResult where
  status : Str
  reason : Str
  interface : Str
  physical_link_up : Bool
  link_state_up : Bool
  link_speed : Option Str
  ip_address : Option Str
  gateway : Option Str
  dns_ok : Bool
  ip_source : Str
deriving DecidableEq, Repr

/-- `run_network_test`: straight-line translation of the pipeline, with
each early `return` becoming the corresponding `if` branch. -/
def run_network_test (env : Env) : NetResult :=
  let default_interface := str "eth0"
  let r0 : NetResult :=
    { status := str "ok", reason := str ""
      interface := default_interface
      physical_link_up := false, link_state_up := false
      link_speed := none, ip_address := none, gateway := none
      dns_ok := false, ip_source := str "none" }
  let route_info := detect_default_route env.route
  let r1 : NetResult :=
    match route_info.interface with
    | some i =>
      { r0 with interface := i, gateway := route_info.gateway
                ip_address := route_info.ip_address }
    | none => r0
  let link_info := detect_interface_state (env.link r1.interface)
  let r2 : NetResult :=
    { r1 with physical_link_up := link_info.physical_link_up
              link_state_up := link_info.link_state_up }
  if r2.physical_link_up = false then
    { r2 with status := str "fail", reason := str "no physical link" }
  else if r2.link_state_up = false then
    { r2 with status := str "fail", reason := str "Link down" }
  else
    let r3 : NetResult := { r2 with link_speed := get_link_speed (env.speed r2.interface) }
    let ip_info := detect_ip_source (env.addr r3.interface)
    let r4 : NetResult := { r3 with ip_source := ip_info.ip_source }
    if ip_info.ip_present then
      let r5 : NetResult := { r4 with ip_address := ip_info.ip_address }
      let r6 : NetResult := { r5 with dns_ok := dns_ok env.dns }
      if r6.dns_ok = false then
        { r6 with status := str "fail", reason := str "dns failed" }
      else
        { r6 with status := str "ok", reason := str "" }
    else
      { r4 with status := str "fail", reason := str "no ip address" }

/-! ## Derived views and concrete environments used by the theorems -/

/-- The interface the orchestrator ends up probing: the route's `dev`
capture when present, else the `"eth0"` fallback. -/
def pickedInterface (env : Env) : Str :=
  match (detect_default_route env.route).interface with
  | some i => i
  | none => str "eth0"

/-- The gateway value stored in the result dict before the link check:
the route's `via` capture, taken only when a route interface was found. -/
def routeGatewayOf (env : Env) : Option Str :=
  match (detect_default_route env.route).interface with
  | some _ => (detect_default_route env.route).gateway
  | none => none

/-- The `ip_address` value stored in the result dict before the link
check: the route's `src` capture, taken only when a route interface was
found. -/
def routeAddrOf (env : Env) : Option Str :=
  match (detect_default_route env.route).interface with
  | some _ => (detect_default_route env.route).ip_address
  | none => none

/-- Specification-side notion for the amended address claim: the first
line whose stripped form starts with `"inet"` and has at least two
whitespace-separated parts (the lines the code does not skip). -/
def ipAuthLine (lines : List Str) : Option Str :=
  lines.find? fun l =>
    startsWithL (strip l) (str "inet") && decide (2 ≤ (splitWs (strip l)).length)

/-- Specification-side reading of one authoritative address line: second
whitespace-separated token with any trailing `/prefix` stripped, DHCP
when the line contains `dynamic`, STATIC otherwise. -/
def ipFromLine (l : Str) : AddrInfo :=
  { ip_present := true
    ip_address := some (takeUntilChar '/' ((splitWs (strip l)).getD 1 []))
    ip_source := if containsSub (strip l) (str "dynamic") then str "dhcp" else str "static"
    error := none }

/-- Specification-side reading of one `"Speed:"` line: split on the
first colon, trim the remainder, and treat an empty remainder or one
containing `"unknown"` (case-insensitively) as unavailable. -/
def speedValueOfLine (l : Str) : Option Str :=
  match splitFirstChar ':' (lstrip l) with
  | none => none
  | some (_, picked) =>
    let value := strip picked
    if value = [] then none
    else if containsSub (toLowerL value) (str "unknown") then none
    else some value

/-- Environment with a full default route (including a `src` capture)
whose link probe reports no physical carrier. -/
def envC2 : Env :=
  { route := Except.ok (str "8.8.8.8 via 10.0.0.1 dev eth0 src 10.0.0.5 uid 1000")
    link := fun _ => Except.ok (str "2: eth0: <NO-CARRIER,BROADCAST,MULTICAST,UP> mtu 1500 state DOWN mode DEFAULT")
    speed := fun _ => Except.error (str "ethtool missing")
    addr := fun _ => Except.error (str "addr probe not invoked")
    dns := Except.error (str "dns probe not invoked") }

/-- Environment whose link probe reports physical carrier but an
administratively down interface. -/
def envC3 : Env :=
  { route := Except.ok (str "8.8.8.8 via 10.0.0.1 dev eth0")
    link := fun _ => Except.ok (str "2: eth0: <BROADCAST,MULTICAST,LOWER_UP> mtu 1500 state DOWN mode DEFAULT")
    speed := fun _ => Except.error (str "not invoked")
    addr := fun _ => Except.error (str "not invoked")
    dns := Except.error (str "not invoked") }

/-- Environment in which every probe succeeds. -/
def envC7a : Env :=
  { route := Except.ok (str "8.8.8.8 via 192.168.1.1 dev eth0 src 192.168.1.50")
    link := fun _ => Except.ok (str "2: eth0: <BROADCAST,MULTICAST,LOWER_UP> mtu 1500 state UP mode DEFAULT")
    speed := fun _ => Except.ok [str "        Speed: 1000Mb/s"]
    addr := fun _ => Except.ok [str "    inet 192.168.1.50/24 scope global eth0"]
    dns := Except.ok (str "142.250.46.78") }

/-- Same as `envC7a` except that the speed probe's invocation fails. -/
def envC7b : Env :=
  { envC7a with speed := fun _ => Except.error (str "ethtool missing") }

/-- Environment whose route-resolution command cannot be invoked. -/
def envC8 : Env :=
  { route := Except.error (str "ip: command not found")
    link := fun _ => Except.ok (str "2: eth0: <BROADCAST,MULTICAST,LOWER_UP> mtu 1500 state UP mode DEFAULT")
    speed := fun _ => Except.ok [str "        Speed: 100Mb/s"]
    addr := fun _ => Except.ok [str "    inet 10.1.2.3/8 scope global dynamic eth0"]
    dns := Except.ok (str "142.250.46.78") }

/-! ## Helper lemmas -/

/-- Closed form of `run_network_test`: the five pipeline leaves, written
out field by field. -/
theorem run_network_test_eq (env : Env) :
    run_network_test env =
      if (detect_interface_state (env.link (pickedInterface env))).physical_link_up = false then
        { status := str "fail", reason := str "no physical link"
          interface := pickedInterface env
          physical_link_up := (detect_interface_state (env.link (pickedInterface env))).physical_link_up
          link_state_up := (detect_interface_state (env.link (pickedInterface env))).link_state_up
          link_speed := none, ip_address := routeAddrOf env, gateway := routeGatewayOf env
          dns_ok := false, ip_source := str "none" }
      else if (detect_interface_state (env.link (pickedInterface env))).link_state_up = false then
        { status := str "fail", reason := str "Link down"
          interface := pickedInterface env
          physical_link_up := (detect_interface_state (env.link (pickedInterface env))).physical_link_up
          link_state_up := (detect_interface_state (env.link (pickedInterface env))).link_state_up
          link_speed := none, ip_address := routeAddrOf env, gateway := routeGatewayOf env
          dns_ok := false, ip_source := str "none" }
      else if (detect_ip_source (env.addr (pickedInterface env))).ip_present then
        if dns_ok env.dns = false then
          { status := str "fail", reason := str "dns failed"
            interface := pickedInterface env
            physical_link_up := (detect_interface_state (env.link (pickedInterface env))).physical_link_up
            link_state_up := (detect_interface_state (env.link (pickedInterface env))).link_state_up
            link_speed := get_link_speed (env.speed (pickedInterface env))
            ip_address := (detect_ip_source (env.addr (pickedInterface env))).ip_address
            gateway := routeGatewayOf env
            dns_ok := dns_ok env.dns
            ip_source := (detect_ip_source (env.addr (pickedInterface env))).ip_source }
        else
          { status := str "ok", reason := str ""
            interface := pickedInterface env
            physical_link_up := (detect_interface_state (env.link (pickedInterface env))).physical_link_up
            link_state_up := (detect_interface_state (env.link (pickedInterface env))).link_state_up
            link_speed := get_link_speed (env.speed (pickedInterface env))
            ip_address := (detect_ip_source (env.addr (pickedInterface env))).ip_address
            gateway := routeGatewayOf env
            dns_ok := dns_ok env.dns
            ip_source := (detect_ip_source (env.addr (pickedInterface env))).ip_source }
      else
        { status := str "fail", reason := str "no ip address"
          interface := pickedInterface env
          physical_link_up := (detect_interface_state (env.link (pickedInterface env))).physical_link_up
          link_state_up := (detect_interface_state (env.link (pickedInterface env))).link_state_up
          link_speed := get_link_speed (env.speed (pickedInterface env))
          ip_address := routeAddrOf env, gateway := routeGatewayOf env
          dns_ok := false
          ip_source := (detect_ip_source (env.addr (pickedInterface env))).ip_source } := by
  rcases h : (detect_default_route env.route).interface with _ | i <;>
    simp only [run_network_test, pickedInterface, routeGatewayOf, routeAddrOf, h]

theorem run_phys_eq (env : Env) :
    (run_network_test env).physical_link_up =
      (detect_interface_state (env.link (pickedInterface env))).physical_link_up := by
  rw [run_network_test_eq]; split_ifs <;> rfl

theorem run_link_eq (env : Env) :
    (run_network_test env).link_state_up =
      (detect_interface_state (env.link (pickedInterface env))).link_state_up := by
  rw [run_network_test_eq]; split_ifs <;> rfl

theorem run_interface_eq (env : Env) :
    (run_network_test env).interface = pickedInterface env := by
  rw [run_network_test_eq]; split_ifs <;> rfl

/-- Every value of `ipScan` is either the all-default dict or a fully
populated one with a present address and a dhcp/static classification. -/
theorem ipScan_shape : ∀ lines : List Str,
    ipScan lines = emptyAddrInfo ∨
    ∃ a src, (src = str "dhcp" ∨ src = str "static") ∧
      ipScan lines =
        { ip_present := true, ip_address := some a, ip_source := src, error := none } := by
  intro lines
  induction lines with
  | nil => left; rfl
  | cons l rest ih =>
    by_cases h1 : startsWithL (strip l) (str "inet")
    · rcases hs : splitWs (strip l) with _ | ⟨p0, _ | ⟨p1, r2⟩⟩
      · simpa [ipScan, h1, hs] using ih
      · simpa [ipScan, h1, hs] using ih
      · right
        refine ⟨takeUntilChar '/' p1,
          if containsSub (strip l) (str "dynamic") then str "dhcp" else str "static", ?_, ?_⟩
        · by_cases hd : containsSub (strip l) (str "dynamic") <;> simp [hd]
        · simp [ipScan, h1, hs]
    · simpa [ipScan, h1] using ih

theorem detect_ip_source_present_addr (out : Except Str (List Str))
    (h : (detect_ip_source out).ip_present = true) :
    (detect_ip_source out).ip_address ≠ none := by
  match out with
  | .error e => simp [detect_ip_source, emptyAddrInfo] at h
  | .ok lines =>
    rcases ipScan_shape lines with hsh | ⟨a, src, hsrc, hsh⟩ <;>
      simp [detect_ip_source, hsh, emptyAddrInfo] at h ⊢

theorem routeScan_gateway_unset : ∀ (ts : List Str) (acc : RouteInfo),
    str "via" ∉ ts.dropLast → (routeScan acc ts).gateway = acc.gateway := by
  intro ts
  induction ts with
  | nil => intro acc _; rfl
  | cons t rest ih =>
    intro acc h
    cases rest with
    | nil => rfl
    | cons next rest2 =>
      rw [show (t :: next :: rest2).dropLast = t :: (next :: rest2).dropLast from rfl,
          List.mem_cons] at h
      push_neg at h
      obtain ⟨h1, h2⟩ := h
      show (routeScan (routeUpdate acc t next) (next :: rest2)).gateway = acc.gateway
      rw [ih _ h2]
      unfold routeUpdate
      split_ifs with hv hd hs <;> simp_all

theorem routeScan_interface_unset : ∀ (ts : List Str) (acc : RouteInfo),
    str "dev" ∉ ts.dropLast → (routeScan acc ts).interface = acc.interface := by
  intro ts
  induction ts with
  | nil => intro acc _; rfl
  | cons t rest ih =>
    intro acc h
    cases rest with
    | nil => rfl
    | cons next rest2 =>
      rw [show (t :: next :: rest2).dropLast = t :: (next :: rest2).dropLast from rfl,
          List.mem_cons] at h
      push_neg at h
      obtain ⟨h1, h2⟩ := h
      show (routeScan (routeUpdate acc t next) (next :: rest2)).interface = acc.interface
      rw [ih _ h2]
      unfold routeUpdate
      split_ifs with hv hd hs <;> simp_all

theorem routeScan_ip_unset : ∀ (ts : List Str) (acc : RouteInfo),
    str "src" ∉ ts.dropLast → (routeScan acc ts).ip_address = acc.ip_address := by
  intro ts
  induction ts with
  | nil => intro acc _; rfl
  | cons t rest ih =>
    intro acc h
    cases rest with
    | nil => rfl
    | cons next rest2 =>
      rw [show (t :: next :: rest2).dropLast = t :: (next :: rest2).dropLast from rfl,
          List.mem_cons] at h
      push_neg at h
      obtain ⟨h1, h2⟩ := h
      show (routeScan (routeUpdate acc t next) (next :: rest2)).ip_address = acc.ip_address
      rw [ih _ h2]
      unfold routeUpdate
      split_ifs with hv hd hs <;> simp_all

/-! ## Claims -/

/-- C1: for every run of `run_network_test`, over all possible
external-command outcomes, the returned record has status `"ok"` if and
only if `physical_link_up` is true, `link_state_up` is true,
`ip_address` is present (non-absent), and `dns_ok` is true. -/
theorem C1_status_ok_iff (env : Env) :
    (run_network_test env).status = str "ok" ↔
      ((run_network_test env).physical_link_up = true ∧
       (run_network_test env).link_state_up = true ∧
       (run_network_test env).ip_address ≠ none ∧
       (run_network_test env).dns_ok = true) := by
  rw [run_network_test_eq]
  by_cases h1 : (detect_interface_state (env.link (pickedInterface env))).physical_link_up = false
  · simp [h1, (by decide : str "fail" ≠ str "ok")]
  by_cases h2 : (detect_interface_state (env.link (pickedInterface env))).link_state_up = false
  · simp [h1, h2, (by decide : str "fail" ≠ str "ok")]
  by_cases h3 : (detect_ip_source (env.addr (pickedInterface env))).ip_present
  · by_cases h4 : dns_ok env.dns = false
    · simp [h1, h2, h3, h4, (by decide : str "fail" ≠ str "ok")]
    · have haddr := detect_ip_source_present_addr _ h3
      simp [h1, h2, h3, h4, haddr]
  · simp [h1, h2, h3, (by decide : str "fail" ≠ str "ok")]

/-- C2 counterexample: with a default route carrying a `src` capture and
a link probe reporting no physical carrier, the returned record has
`physical_link_up = false` yet a present (non-absent) `ip_address`,
because `run_network_test` copies the route's source address into the
result before the link check.  This refutes the claim that `ip_address`
is at its pipeline default (absent) whenever `physical_link_up` is
false. -/
theorem C2_counterexample :
    (run_network_test envC2).physical_link_up = false ∧
    (run_network_test envC2).ip_address = some (str "10.0.0.5") := by decide

/-- C2 (amended): for every run of `run_network_test` in which
`physical_link_up` is false in the returned record, `link_speed` is at
its pipeline default (absent) and `dns_ok` at its pipeline default
(false) because probes after the link-state check are never invoked,
while `ip_address` holds whatever the route resolver already stored
(its `src` capture when a route interface was found, absent
otherwise). -/
theorem C2_amended_thm (env : Env)
    (h : (run_network_test env).physical_link_up = false) :
    (run_network_test env).link_speed = none ∧
    (run_network_test env).dns_ok = false ∧
    (run_network_test env).ip_address = routeAddrOf env := by
  have h1 : (detect_interface_state (env.link (pickedInterface env))).physical_link_up = false := by
    rw [← run_phys_eq]; exact h
  rw [run_network_test_eq]
  simp [h1]

/-- C2 witness: the amended statement instantiated at `envC2`. -/
theorem C2_amended_witness :
    (run_network_test envC2).link_speed = none ∧
    (run_network_test envC2).dns_ok = false ∧
    (run_network_test envC2).ip_address = routeAddrOf envC2 :=
  C2_amended_thm envC2 (by decide)

/-- C3 counterexample: with physical carrier present and the link
administratively down, the run fails but its reason is none of the four
phrases listed in the claim — the code writes `"Link down"` with a
capital `L`, not `"link down"`. -/
theorem C3_counterexample :
    (run_network_test envC3).status = str "fail" ∧
    (run_network_test envC3).reason ≠ str "no physical link" ∧
    (run_network_test envC3).reason ≠ str "link down" ∧
    (run_network_test envC3).reason ≠ str "no ip address" ∧
    (run_network_test envC3).reason ≠ str "dns failed" := by decide

/-- C3 (amended): for every run of `run_network_test`, the returned
record's `reason` is non-empty if and only if `status` is `"fail"`, and
whenever `status` is `"fail"` the reason is exactly one of the fixed
phrases `"no physical link"`, `"Link down"`, `"no ip address"`,
`"dns failed"`. -/
theorem C3_amended_thm (env : Env) :
    ((run_network_test env).reason ≠ str "" ↔ (run_network_test env).status = str "fail") ∧
    ((run_network_test env).status = str "fail" →
      ((run_network_test env).reason = str "no physical link" ∨
       (run_network_test env).reason = str "Link down" ∨
       (run_network_test env).reason = str "no ip address" ∨
       (run_network_test env).reason = str "dns failed")) := by
  rw [run_network_test_eq]
  split_ifs <;>
    simp [(by decide : str "no physical link" ≠ str ""),
          (by decide : str "Link down" ≠ str ""),
          (by decide : str "no ip address" ≠ str ""),
          (by decide : str "dns failed" ≠ str ""),
          (by decide : str "ok" ≠ str "fail")]

/-- C3 witness: the amended statement's failure clause discharged at
`envC3`. -/
theorem C3_amended_witness :
    (run_network_test envC3).reason = str "no physical link" ∨
    (run_network_test envC3).reason = str "Link down" ∨
    (run_network_test envC3).reason = str "no ip address" ∨
    (run_network_test envC3).reason = str "dns failed" :=
  (C3_amended_thm envC3).2 (by decide)

/-- C4: route-token parsing is marker-driven and order-independent —
each marker `via` / `dev` / `src` captures the immediately following
token into `gateway` / `interface` / `ip_address` respectively,
unrecognized tokens are ignored (dropping one changes nothing), and any
of the six orderings of the disjoint marker-value pairs
`dev eth0`, `via 10.0.0.1`, `src 10.0.0.5` yields the same extracted
triple. -/
theorem C4_route_marker_thm :
    (∀ g : Str, (routeParse [str "via", g]).gateway = some g) ∧
    (∀ d : Str, (routeParse [str "dev", d]).interface = some d) ∧
    (∀ s : Str, (routeParse [str "src", s]).ip_address = some s) ∧
    (∀ t : Str, t ≠ str "via" → t ≠ str "dev" → t ≠ str "src" →
      ∀ (info : RouteInfo) (ts : List Str), routeScan info (t :: ts) = routeScan info ts) ∧
    (∀ p ∈ ([
        [str "dev", str "eth0", str "via", str "10.0.0.1", str "src", str "10.0.0.5"],
        [str "dev", str "eth0", str "src", str "10.0.0.5", str "via", str "10.0.0.1"],
        [str "via", str "10.0.0.1", str "dev", str "eth0", str "src", str "10.0.0.5"],
        [str "via", str "10.0.0.1", str "src", str "10.0.0.5", str "dev", str "eth0"],
        [str "src", str "10.0.0.5", str "dev", str "eth0", str "via", str "10.0.0.1"],
        [str "src", str "10.0.0.5", str "via", str "10.0.0.1", str "dev", str "eth0"]] : List (List Str)),
      routeParse p =
        { gateway := some (str "10.0.0.1"), interface := some (str "eth0")
          ip_address := some (str "10.0.0.5"), error := none }) := by
  refine ⟨?_, ?_, ?_, ?_, by decide⟩
  · intro g
    show (routeUpdate emptyRouteInfo (str "via") g).gateway = some g
    unfold routeUpdate
    rw [if_pos rfl]
  · intro d
    show (routeUpdate emptyRouteInfo (str "dev") d).interface = some d
    unfold routeUpdate
    rw [if_neg (by decide), if_pos rfl]
  · intro s
    show (routeUpdate emptyRouteInfo (str "src") s).ip_address = some s
    unfold routeUpdate
    rw [if_neg (by decide), if_neg (by decide), if_pos rfl]
  · intro t h1 h2 h3 info ts
    cases ts with
    | nil => rfl
    | cons next rest =>
      show routeScan (routeUpdate info t next) (next :: rest) = routeScan info (next :: rest)
      have hu : routeUpdate info t next = info := by
        unfold routeUpdate
        rw [if_neg h1, if_neg h2, if_neg h3]
      rw [hu]

/-- C4 witness: dropping the unrecognized token `proto` from a token
list leaves the scan result unchanged. -/
theorem C4_witness :
    routeScan emptyRouteInfo [str "proto", str "dhcp", str "dev", str "eth0"] =
      routeScan emptyRouteInfo [str "dhcp", str "dev", str "eth0"] :=
  C4_route_marker_thm.2.2.2.1 (str "proto") (by decide) (by decide) (by decide)
    emptyRouteInfo [str "dhcp", str "dev", str "eth0"]

/-- C5 counterexample: when the first `inet` line is `"inet"` alone
(fewer than two tokens), the code skips it (`continue`) and takes the
address from the second `inet` line — so the first inet line is not
authoritative and later inet lines are consulted, refuting the claim as
stated. -/
theorem C5_counterexample :
    (detect_ip_source (Except.ok [str "inet", str "inet 10.0.0.1/24 dynamic"])).ip_address
        = some (str "10.0.0.1") ∧
    (detect_ip_source (Except.ok [str "inet"])).ip_present = false := by decide

/-- C5 (amended): for every address-listing line list, the first line
that (after trimming) begins with `"inet"` AND has at least two
whitespace-separated tokens is authoritative: the address is that
line's second token with any trailing `/prefix` stripped, the
classification is DHCP when the line contains `dynamic` and STATIC
otherwise; `inet` lines with fewer than two tokens are skipped, and if
no qualifying line exists the result is the default (no address,
classification NONE). -/
theorem C5_amended_thm : ∀ lines : List Str,
    ipScan lines =
      match ipAuthLine lines with
      | none => emptyAddrInfo
      | some l => ipFromLine l := by
  intro lines
  induction lines with
  | nil => rfl
  | cons l rest ih =>
    by_cases h1 : startsWithL (strip l) (str "inet")
    · rcases hs : splitWs (strip l) with _ | ⟨p0, _ | ⟨p1, r2⟩⟩
      · have hp : (startsWithL (strip l) (str "inet") &&
            decide (2 ≤ (splitWs (strip l)).length)) = false := by simp [hs]
        calc ipScan (l :: rest) = ipScan rest := by simp [ipScan, h1, hs]
          _ = _ := by rw [ih]; unfold ipAuthLine; simp only [List.find?, hp]
      · have hp : (startsWithL (strip l) (str "inet") &&
            decide (2 ≤ (splitWs (strip l)).length)) = false := by simp [hs]
        calc ipScan (l :: rest) = ipScan rest := by simp [ipScan, h1, hs]
          _ = _ := by rw [ih]; unfold ipAuthLine; simp only [List.find?, hp]
      · have hp : (startsWithL (strip l) (str "inet") &&
            decide (2 ≤ (splitWs (strip l)).length)) = true := by
          simp [h1, hs]
        rw [show ipAuthLine (l :: rest) = some l from by
          unfold ipAuthLine; simp only [List.find?, hp]]
        simp [ipScan, h1, hs, ipFromLine]
    · have hp : (startsWithL (strip l) (str "inet") &&
          decide (2 ≤ (splitWs (strip l)).length)) = false := by simp [h1]
      calc ipScan (l :: rest) = ipScan rest := by simp [ipScan, h1]
        _ = _ := by rw [ih]; unfold ipAuthLine; simp only [List.find?, hp]

/-- C6: `get_link_speed` returns the value of the first line that,
after left-trimming, begins with `"Speed:"`, split on the first colon
and trimmed; that first matching line yields absent when its remainder
is empty or contains `"unknown"` case-insensitively; no matching line
or an invocation failure yields absent; and the spec's two examples
hold. -/
theorem C6_speed_thm :
    (∀ lines : List Str,
      get_link_speed (Except.ok lines) =
        (lines.find? fun l => startsWithL (lstrip l) (str "Speed:")).bind speedValueOfLine) ∧
    get_link_speed (Except.ok [str "Settings for eth0:", str "        Speed: 1000Mb/s"]) =
      some (str "1000Mb/s") ∧
    get_link_speed (Except.ok [str "Speed: Unknown!"]) = none ∧
    (∀ e : Str, get_link_speed (Except.error e) = none) := by
  refine ⟨?_, by decide, by decide, fun e => rfl⟩
  intro lines
  induction lines with
  | nil => rfl
  | cons l rest ih =>
    by_cases h1 : startsWithL (lstrip l) (str "Speed:")
    · rw [show get_link_speed (Except.ok (l :: rest)) = speedScan (l :: rest) from rfl]
      simp only [List.find?, h1]
      simp [speedScan, h1, speedValueOfLine]
    · rw [show get_link_speed (Except.ok (l :: rest)) = speedScan (l :: rest) from rfl]
      simp only [List.find?, h1]
      calc speedScan (l :: rest) = speedScan rest := by simp [speedScan, h1]
        _ = _ := ih

/-- C7: the speed probe is advisory — two runs of `run_network_test`
that agree on the route, link-state, address, and DNS oracles but
differ arbitrarily in the speed oracle return identical `status` and
`reason`. -/
theorem C7_speed_advisory (env env' : Env)
    (hroute : env.route = env'.route) (hlink : env.link = env'.link)
    (haddr : env.addr = env'.addr) (hdns : env.dns = env'.dns) :
    (run_network_test env).status = (run_network_test env').status ∧
    (run_network_test env).reason = (run_network_test env').reason := by
  obtain ⟨r, l, s, a, d⟩ := env
  obtain ⟨r', l', s', a', d'⟩ := env'
  simp only at hroute hlink haddr hdns
  subst hroute hlink haddr hdns
  rw [run_network_test_eq, run_network_test_eq]
  have hpi : pickedInterface ⟨r, l, s', a, d⟩ = pickedInterface ⟨r, l, s, a, d⟩ := rfl
  simp only [hpi]
  split_ifs <;> simp

/-- C7 witness: `envC7a` and `envC7b` differ exactly in the speed
oracle and produce the same status and reason. -/
theorem C7_witness :
    (run_network_test envC7a).status = (run_network_test envC7b).status ∧
    (run_network_test envC7a).reason = (run_network_test envC7b).reason :=
  C7_speed_advisory envC7a envC7b rfl rfl rfl rfl

/-- C8: whenever the route resolver fails to determine an interface,
`run_network_test` substitutes the fixed default `"eth0"` in the
returned record and runs the remaining probes against it (totality of
`run_network_test` means a complete record is always returned). -/
theorem C8_default_fallback (env : Env)
    (h : (detect_default_route env.route).interface = none) :
    (run_network_test env).interface = str "eth0" ∧
    (run_network_test env).physical_link_up =
      (detect_interface_state (env.link (str "eth0"))).physical_link_up ∧
    (run_network_test env).link_state_up =
      (detect_interface_state (env.link (str "eth0"))).link_state_up := by
  have hpi : pickedInterface env = str "eth0" := by
    unfold pickedInterface; rw [h]
  refine ⟨?_, ?_, ?_⟩
  · rw [run_interface_eq, hpi]
  · rw [run_phys_eq, hpi]
  · rw [run_link_eq, hpi]

/-- C8 witness: the fallback statement instantiated at an environment
whose route command cannot be invoked. -/
theorem C8_witness :
    (run_network_test envC8).interface = str "eth0" ∧
    (run_network_test envC8).physical_link_up =
      (detect_interface_state (envC8.link (str "eth0"))).physical_link_up ∧
    (run_network_test envC8).link_state_up =
      (detect_interface_state (envC8.link (str "eth0"))).link_state_up :=
  C8_default_fallback envC8 (by decide)

/-- C9: route-token parsing is total over arbitrary token lists, and a
marker appearing only as the final token captures nothing: whenever a
marker does not occur before the last position, its corresponding field
stays unset. -/
theorem C9_final_marker_safe :
    (∀ ts : List Str, str "via" ∉ ts.dropLast → (routeParse ts).gateway = none) ∧
    (∀ ts : List Str, str "dev" ∉ ts.dropLast → (routeParse ts).interface = none) ∧
    (∀ ts : List Str, str "src" ∉ ts.dropLast → (routeParse ts).ip_address = none) :=
  ⟨fun ts h => routeScan_gateway_unset ts emptyRouteInfo h,
   fun ts h => routeScan_interface_unset ts emptyRouteInfo h,
   fun ts h => routeScan_ip_unset ts emptyRouteInfo h⟩

/-- C9 witness: with `via` as the final token, the gateway field stays
unset and no out-of-bounds access occurs. -/
theorem C9_witness :
    (str "via" ∉ ([str "8.8.8.8", str "dev", str "eth0", str "via"] : List Str).dropLast) ∧
    (routeParse [str "8.8.8.8", str "dev", str "eth0", str "via"]).gateway = none :=
  ⟨by decide, C9_final_marker_safe.1 _ (by decide)⟩

/-- C10: for every command outcome (invocation failure, empty output,
malformed inet lines included), the output of `detect_ip_source`
satisfies: `ip_present` is true iff `ip_address` is set, `ip_present`
is true iff `ip_source` is dhcp or static, and `ip_present` is false
iff `ip_source` is none. -/
theorem C10_addr_invariant (out : Except Str (List Str)) :
    ((detect_ip_source out).ip_present = true ↔ (detect_ip_source out).ip_address ≠ none) ∧
    ((detect_ip_source out).ip_present = true ↔
      ((detect_ip_source out).ip_source = str "dhcp" ∨
       (detect_ip_source out).ip_source = str "static")) ∧
    ((detect_ip_source out).ip_present = false ↔
      (detect_ip_source out).ip_source = str "none") := by
  match out with
  | .error e =>
    simp [detect_ip_source, emptyAddrInfo,
      (by decide : str "none" ≠ str "dhcp"), (by decide : str "none" ≠ str "static")]
  | .ok lines =>
    rcases ipScan_shape lines with h | ⟨a, src, hsrc, h⟩
    · simp [detect_ip_source, h, emptyAddrInfo,
        (by decide : str "none" ≠ str "dhcp"), (by decide : str "none" ≠ str "static")]
    · rcases hsrc with h2 | h2 <;> subst h2 <;>
        simp [detect_ip_source, h,
          (by decide : str "dhcp" ≠ str "none"), (by decide : str "static" ≠ str "none")]
